import Mathlib

/-!
Verification of the eyecite extraction adapter (scripts/eyecite_extract.py).

The script is a thin adapter over an external citation-parsing library
(the collaborator): it reads stdin, delegates cleaning, extraction and
resolution to the collaborator, reshapes each citation object into a flat
JSON record, and prints a single JSON document.  The collaborator is
modelled abstractly: its three entry points are arbitrary functions which
may raise (modelled as `Except String`), and its citation objects are
modelled as a record of exactly the pieces of data the adapter reads from
them (concrete class, string form, groups dict, metadata, span accessor,
antecedent relation).  Everything the adapter itself does is translated
line by line from the source.
-/

namespace EyeciteExtract

/-- Concrete class of a collaborator citation object, as inspected by
type(cite) in get_citation_type.  The six imported eyecite classes are
listed; OtherClass stands for any other concrete class (named by an
arbitrary string so that distinct unmapped classes stay distinct). -/
inductive CiteClass where
  | FullCaseCitation
  | ShortCaseCitation
  | IdCitation
  | IbidCitation
  | SupraCitation
  | FullLawCitation
  | OtherClass (name : String)
  deriving DecidableEq

/-- The metadata object of a collaborator citation: the five attributes the
adapter reads through safe_get.  A missing attribute and an attribute whose
value is None both map to none, exactly as safe_get collapses them. -/
structure Metadata where
  pin_cite : Option String
  year : Option String
  court : Option String
  plaintiff : Option String
  defendant : Option String
  deriving DecidableEq

/-- A collaborator citation object, holding exactly the data the adapter
reads: its concrete class, its str() form, the optional groups dict
(none models a missing or falsy groups attribute, which getattr-or-empty
turns into the empty dict), the optional metadata object, the optional
span accessor with the pair it returns, and for resolved citations the
optional antecedent relation (none models a missing antecedent attribute
or a falsy antecedent value; some s models a truthy antecedent whose str()
is s, since the adapter only ever takes its string form). -/
structure Cite where
  cls : CiteClass
  toStr : String
  groups : Option (List (String × Option String))
  metadata : Option Metadata
  span : Option (Nat × Nat)
  antecedent : Option String
  deriving DecidableEq

/-- Python dict.get on a string-keyed dict with possibly-None values,
modelled on an association list: the first binding of the key, collapsed
with None for a missing key. -/
def dictGet (d : List (String × Option String)) (k : String) : Option String :=
  match d.find? (fun p => p.1 == k) with
  | some p => p.2
  | none => none

/-- Mirrors get_citation_type: type_map.get(type(cite), "UNKNOWN"), an
exact-class lookup over the six imported eyecite classes. -/
def get_citation_type (cite : Cite) : String :=
  match cite.cls with
  | .FullCaseCitation => "FULL_CASE"
  | .ShortCaseCitation => "SHORT_CASE"
  | .IdCitation => "ID"
  | .IbidCitation => "IBID"
  | .SupraCitation => "SUPRA"
  | .FullLawCitation => "STATUTE"
  | .OtherClass _ => "UNKNOWN"

/-- Mirrors safe_get(obj, attr) at its call sites, where obj is the
citation metadata or None: attribute access on None (and a missing
attribute) yields the default None, attribute access on a metadata object
yields the attribute value. -/
def safe_get (obj : Option Metadata) (attr : Metadata → Option String) : Option String :=
  match obj with
  | some m => attr m
  | none => none

/-- Python truthiness of an optional string value: None and the empty
string are falsy, any other string is truthy.  Used by the case_name
construction, which tests the plaintiff and defendant values with a bare
if, not with an is-not-None test. -/
def truthyStr : Option String → Bool
  | none => false
  | some s => s != ""

/-- One output citation record, field for field the dict built in
extract_citations.  The span field keeps the pair shape of the two-element
JSON array [start, end]. -/
structure CitationRecord where
  index : Nat
  raw : String
  citation_type : String
  volume : Option String
  reporter : Option String
  page : Option String
  pinpoint : Option String
  year : Option String
  court : Option String
  plaintiff : Option String
  defendant : Option String
  case_name : Option String
  span : Option (Nat × Nat)
  antecedent : Option String
  deriving DecidableEq

/-- Builds the antecedent map of extract_citations: iterate over the
resolved citations in order and, for each one with a truthy antecedent,
assign antecedent_map[str(cite)] = str(cite.antecedent); a later
assignment to the same key overwrites an earlier one, as in a Python
dict.  The map is modelled as a function returning none for absent keys,
matching dict.get. -/
def buildAntecedentMap (resolved : List Cite) : String → Option String :=
  resolved.foldl
    (fun m cite =>
      match cite.antecedent with
      | some a => fun k => if k == cite.toStr then some a else m k
      | none => m)
    (fun _ => none)

/-- Builds one record of the results list: the loop body of step 4 of
extract_citations, for loop index i and citation cite, including the
case_name construction performed just before results.append. -/
def makeRecord (antecedent_map : String → Option String) (i : Nat) (cite : Cite) :
    CitationRecord :=
  let groups := cite.groups.getD []
  let metadata := cite.metadata
  let plaintiff := safe_get metadata Metadata.plaintiff
  let defendant := safe_get metadata Metadata.defendant
  { index := i
    raw := cite.toStr
    citation_type := get_citation_type cite
    volume := dictGet groups "volume"
    reporter := dictGet groups "reporter"
    page := dictGet groups "page"
    pinpoint := safe_get metadata Metadata.pin_cite
    year := safe_get metadata Metadata.year
    court := safe_get metadata Metadata.court
    plaintiff := plaintiff
    defendant := defendant
    case_name :=
      if truthyStr plaintiff && truthyStr defendant then
        some (plaintiff.getD "" ++ " v. " ++ defendant.getD "")
      else none
    span := cite.span
    antecedent := antecedent_map cite.toStr }

/-- The collaborator library: the three entry points the adapter calls.
Each may raise, modelled as Except with the str() form of the exception. -/
structure Collab where
  clean_text : String → Except String String
  get_citations : String → Except String (List Cite)
  resolve_citations : List Cite → Except String (List Cite)

/-- Mirrors extract_citations: clean, extract, resolve, build the
antecedent map over the resolved citations, then map the record builder
over enumerate(citations), the original extraction-ordered sequence.  An
exception raised by any collaborator step propagates out unchanged. -/
def extract_citations (col : Collab) (text : String) :
    Except String (List CitationRecord) :=
  match col.clean_text text with
  | .error e => .error e
  | .ok cleaned =>
    match col.get_citations cleaned with
    | .error e => .error e
    | .ok citations =>
      match col.resolve_citations citations with
      | .error e => .error e
      | .ok resolved =>
        let antecedent_map := buildAntecedentMap resolved
        .ok (citations.enum.map (fun p => makeRecord antecedent_map p.1 p.2))

/-- The single JSON document printed to stdout, by shape: result is the
object with citations and count keys (printed compact on the empty-input
path and pretty-printed on the success path; the claims are about the
JSON value, not its formatting), errorResult is the extraction-failure
object with error, citations and count keys, and importError is the
startup object with error and citations keys only. -/
inductive Output where
  | result (citations : List CitationRecord) (count : Nat)
  | errorResult (error : String) (citations : List CitationRecord) (count : Nat)
  | importError (error : String) (citations : List CitationRecord)
  deriving DecidableEq

/-- Whitespace characters of Python str.strip restricted to ASCII (the
inputs in question only involve these). -/
def pyIsSpace (c : Char) : Bool :=
  c == ' ' || c == '\t' || c == '\n' || c == '\r' || c == '\x0b' || c == '\x0c'

/-- Mirrors the test `not text.strip()`: true exactly when the input is
empty or consists only of whitespace characters. -/
def strippedEmpty (s : String) : Bool :=
  s.data.all pyIsSpace

/-- What one process run produces: the printed JSON document and the
process exit code. -/
structure RunResult where
  output : Output
  exitCode : Nat
  deriving DecidableEq

/-- Mirrors main: read stdin (the text argument), short-circuit on empty
or whitespace-only input with the empty result and exit 0, otherwise run
extract_citations under try, printing the success object with count =
len(citations) and exiting 0, or on an exception the error object with
str(e) and exiting 1. -/
def main (col : Collab) (text : String) : RunResult :=
  if strippedEmpty text then
    ⟨Output.result [] 0, 0⟩
  else
    match extract_citations col text with
    | .ok citations => ⟨Output.result citations citations.length, 0⟩
    | .error e => ⟨Output.errorResult e [] 0, 1⟩

/-- The whole program including the import guard at module load: when the
collaborator dependency is unavailable the fixed import-error object is
printed and the process exits 1 before main runs; otherwise main runs. -/
def program (depAvailable : Bool) (col : Collab) (text : String) : RunResult :=
  if depAvailable then
    main col text
  else
    ⟨Output.importError "eyecite not installed. Run: pip install eyecite" [], 1⟩

/-- Unfolding lemma: the index field of a built record is the loop index. -/
theorem makeRecord_index (m : String → Option String) (i : Nat) (cite : Cite) :
    (makeRecord m i cite).index = i := rfl

/-- Unfolding lemma: the raw field of a built record is str(cite). -/
theorem makeRecord_raw (m : String → Option String) (i : Nat) (cite : Cite) :
    (makeRecord m i cite).raw = cite.toStr := rfl

/-- Unfolding lemma: the citation_type field of a built record. -/
theorem makeRecord_citation_type (m : String → Option String) (i : Nat) (cite : Cite) :
    (makeRecord m i cite).citation_type = get_citation_type cite := rfl

/-- Unfolding lemma: the plaintiff field of a built record. -/
theorem makeRecord_plaintiff (m : String → Option String) (i : Nat) (cite : Cite) :
    (makeRecord m i cite).plaintiff = safe_get cite.metadata Metadata.plaintiff := rfl

/-- Unfolding lemma: the defendant field of a built record. -/
theorem makeRecord_defendant (m : String → Option String) (i : Nat) (cite : Cite) :
    (makeRecord m i cite).defendant = safe_get cite.metadata Metadata.defendant := rfl

/-- Unfolding lemma: the case_name field of a built record. -/
theorem makeRecord_case_name (m : String → Option String) (i : Nat) (cite : Cite) :
    (makeRecord m i cite).case_name =
      if truthyStr (safe_get cite.metadata Metadata.plaintiff) &&
          truthyStr (safe_get cite.metadata Metadata.defendant) then
        some ((safe_get cite.metadata Metadata.plaintiff).getD "" ++ " v. " ++
          (safe_get cite.metadata Metadata.defendant).getD "")
      else none := rfl

/-- Unfolding lemma: the span field of a built record is the span of the
underlying citation object. -/
theorem makeRecord_span (m : String → Option String) (i : Nat) (cite : Cite) :
    (makeRecord m i cite).span = cite.span := rfl

/-- Unfolding lemma: the antecedent field of a built record is the
antecedent map looked up at str(cite), which is also the raw field. -/
theorem makeRecord_antecedent (m : String → Option String) (i : Nat) (cite : Cite) :
    (makeRecord m i cite).antecedent = m cite.toStr := rfl

/-- On the all-ok path the pipeline returns exactly the mapped records of
the enumerated extraction-ordered citations. -/
theorem extract_citations_ok (col : Collab) (text cleaned : String)
    (cits resolved : List Cite)
    (h1 : col.clean_text text = Except.ok cleaned)
    (h2 : col.get_citations cleaned = Except.ok cits)
    (h3 : col.resolve_citations cits = Except.ok resolved) :
    extract_citations col text =
      Except.ok (cits.enum.map
        (fun p => makeRecord (buildAntecedentMap resolved) p.1 p.2)) := by
  unfold extract_citations
  simp only [h1, h2, h3]

/-- Any printed result object comes either from the empty-input shortcut
(empty list) or from a successful pipeline run, in which case the list of
records is the record builder mapped over the enumerated citations with
the antecedent map of the resolved citations. -/
theorem output_result_shape (col : Collab) (text : String)
    (recs : List CitationRecord) (n : Nat)
    (h : (main col text).output = Output.result recs n) :
    recs = [] ∨ ∃ cits resolved : List Cite,
      recs = cits.enum.map
        (fun p => makeRecord (buildAntecedentMap resolved) p.1 p.2) := by
  unfold main at h
  split at h
  · injection h with h1 h2
    exact Or.inl h1.symm
  · split at h
    case _ cits heq =>
      injection h with h1 h2
      unfold extract_citations at heq
      split at heq
      · exact absurd heq (by simp)
      · split at heq
        · exact absurd heq (by simp)
        · split at heq
          · exact absurd heq (by simp)
          · injection heq with heq
            exact Or.inr ⟨_, _, h1.symm.trans heq.symm⟩
    case _ e heq =>
      exact absurd h (by simp)

/-- Concrete example: a full case citation as the collaborator would
produce it for Roe v. Wade. -/
def citeRoe : Cite :=
  { cls := CiteClass.FullCaseCitation
    toStr := "410 U.S. 113"
    groups := some [("volume", some "410"), ("reporter", some "U.S."), ("page", some "113")]
    metadata := some
      { pin_cite := none
        year := some "1973"
        court := some "scotus"
        plaintiff := some "Roe"
        defendant := some "Wade" }
    span := some (0, 12)
    antecedent := none }

/-- Concrete example: a short-form Id. citation with no metadata. -/
def citeId : Cite :=
  { cls := CiteClass.IdCitation
    toStr := "Id. at 120"
    groups := none
    metadata := none
    span := some (34, 44)
    antecedent := none }

/-- Concrete example: the Id. citation as it appears among the resolved
citations, now carrying its antecedent relation to the full citation. -/
def citeIdResolved : Cite :=
  { citeId with antecedent := some "410 U.S. 113" }

/-- Concrete example collaborator: extraction finds the single full
citation and every step succeeds. -/
def colOk : Collab :=
  { clean_text := fun s => Except.ok s
    get_citations := fun _ => Except.ok [citeRoe]
    resolve_citations := fun l => Except.ok l }

/-- The single record colOk produces. -/
def recRoe : CitationRecord :=
  makeRecord (buildAntecedentMap [citeRoe]) 0 citeRoe

/-- Concrete example collaborator: extraction finds the full citation
then the Id. citation, and resolution links the Id. to the full one. -/
def colTwo : Collab :=
  { clean_text := fun s => Except.ok s
    get_citations := fun _ => Except.ok [citeRoe, citeId]
    resolve_citations := fun _ => Except.ok [citeRoe, citeIdResolved] }

/-- The antecedent map of the colTwo run. -/
def mapTwo : String → Option String :=
  buildAntecedentMap [citeRoe, citeIdResolved]

/-- The two records the colTwo run produces. -/
def recTwo0 : CitationRecord := makeRecord mapTwo 0 citeRoe

/-- The second record of the colTwo run. -/
def recTwo1 : CitationRecord := makeRecord mapTwo 1 citeId

/-- C1: for every successful run, the count field of the printed JSON
object equals the length of its citations array. -/
theorem C1_count_eq_length (col : Collab) (text : String)
    (recs : List CitationRecord) (n : Nat)
    (h : (main col text).output = Output.result recs n) :
    n = recs.length := by
  unfold main at h
  split at h
  · injection h with h1 h2
    subst h1
    subst h2
    rfl
  · split at h
    · injection h with h1 h2
      subst h1
      subst h2
      rfl
    · exact absurd h (by simp)

/-- Witness for C1 at the concrete colOk run with one citation. -/
theorem C1_count_eq_length_witness : (1 : Nat) = [recRoe].length :=
  C1_count_eq_length colOk "Roe v. Wade, 410 U.S. 113 (1973)" [recRoe] 1 rfl

/-- C2: on empty or whitespace-only input the program prints exactly the
object with an empty citations array and count 0 and exits 0; the result
is the same for every collaborator, so none of the cleaning, extraction
or resolution steps can influence it (they are never reached). -/
theorem C2_empty_input (col : Collab) (text : String)
    (h : strippedEmpty text = true) :
    main col text = ⟨Output.result [] 0, 0⟩ := by
  unfold main
  simp [h]

/-- Witness for C2 at a concrete whitespace-only input. -/
theorem C2_empty_input_witness :
    strippedEmpty " \t\n " = true ∧ main colOk " \t\n " = ⟨Output.result [] 0, 0⟩ :=
  ⟨by decide, C2_empty_input colOk " \t\n " (by decide)⟩

/-- Concrete example collaborator raising an exception whose string form
is empty during text cleaning. -/
def colRaiseEmpty : Collab :=
  { clean_text := fun _ => Except.error ""
    get_citations := fun _ => Except.ok []
    resolve_citations := fun l => Except.ok l }

/-- Concrete example collaborator raising an exception with message boom
during text cleaning. -/
def colRaiseBoom : Collab :=
  { clean_text := fun _ => Except.error "boom"
    get_citations := fun _ => Except.ok []
    resolve_citations := fun l => Except.ok l }

/-- C3 counterexample: a run whose pipeline raises an exception with an
empty string form prints an error object whose error field is the empty
string, so the claimed non-emptiness of the error string fails. -/
theorem C3_counterexample :
    extract_citations colRaiseEmpty "Roe" = Except.error "" ∧
    main colRaiseEmpty "Roe" = ⟨Output.errorResult "" [] 0, 1⟩ :=
  ⟨rfl, rfl⟩

/-- C3 amended: whenever the pipeline raises, the program prints exactly
the error object carrying the string form of the exception (possibly
empty), an empty citations array and count 0 — never partial records —
and exits 1. -/
theorem C3_error_path (col : Collab) (text : String) (e : String)
    (h1 : strippedEmpty text = false)
    (h2 : extract_citations col text = Except.error e) :
    main col text = ⟨Output.errorResult e [] 0, 1⟩ := by
  unfold main
  simp [h1, h2]

/-- Witness for C3 amended at the concrete colRaiseBoom run. -/
theorem C3_error_path_witness :
    strippedEmpty "x" = false ∧
    main colRaiseBoom "x" = ⟨Output.errorResult "boom" [] 0, 1⟩ :=
  ⟨by decide, C3_error_path colRaiseBoom "x" "boom" (by decide) rfl⟩

/-- C4: the exit code is always 0 or 1, and it is 1 exactly when the
dependency failed to import or the pipeline raised on a non-empty input;
on every other path (success, including the empty-input case) it is 0. -/
theorem C4_exit_codes (dep : Bool) (col : Collab) (text : String) :
    ((program dep col text).exitCode = 0 ∨ (program dep col text).exitCode = 1) ∧
    ((program dep col text).exitCode = 1 ↔
      dep = false ∨
        (strippedEmpty text = false ∧ ∃ e, extract_citations col text = Except.error e)) := by
  cases dep
  · simp [program]
  · unfold program main
    by_cases hs : strippedEmpty text = true
    · simp [hs]
    · have hs2 : strippedEmpty text = false := by
        exact Bool.not_eq_true _ ▸ hs
      cases hx : extract_citations col text with
      | ok cits => simp [hs2, hx]
      | error e => simp [hs2, hx]

/-- C5: in every successful pipeline run the index fields of the output
records are exactly 0, 1, 2, ... in array order, and the raw fields
follow the citations in their original extraction order. -/
theorem C5_index_contiguous (col : Collab) (text cleaned : String)
    (cits resolved : List Cite)
    (h1 : col.clean_text text = Except.ok cleaned)
    (h2 : col.get_citations cleaned = Except.ok cits)
    (h3 : col.resolve_citations cits = Except.ok resolved)
    (recs : List CitationRecord)
    (hr : extract_citations col text = Except.ok recs) :
    recs.map CitationRecord.index = List.range cits.length ∧
    recs.map CitationRecord.raw = cits.map Cite.toStr := by
  have hx := extract_citations_ok col text cleaned cits resolved h1 h2 h3
  rw [hr] at hx
  injection hx with hx
  subst hx
  constructor
  · rw [List.map_map]
    have hcomp : (CitationRecord.index ∘
        fun p => makeRecord (buildAntecedentMap resolved) p.1 p.2) = Prod.fst := by
      funext p
      exact makeRecord_index _ _ _
    rw [hcomp, List.enum_map_fst]
  · rw [List.map_map]
    have hcomp : (CitationRecord.raw ∘
        fun p => makeRecord (buildAntecedentMap resolved) p.1 p.2) =
        Cite.toStr ∘ Prod.snd := by
      funext p
      exact makeRecord_raw _ _ _
    rw [hcomp, ← List.map_map, List.enum_map_snd]

/-- Witness for C5 at the concrete two-citation colTwo run. -/
theorem C5_index_contiguous_witness :
    [recTwo0, recTwo1].map CitationRecord.index = List.range ([citeRoe, citeId].length) ∧
    [recTwo0, recTwo1].map CitationRecord.raw = [citeRoe, citeId].map Cite.toStr :=
  C5_index_contiguous colTwo "some text" "some text" [citeRoe, citeId]
    [citeRoe, citeIdResolved] rfl rfl rfl [recTwo0, recTwo1] rfl

/-- Case analysis of the case_name construction for a single built
record: non-null exactly when plaintiff and defendant are both non-null
and non-empty, and then equal to the joined party names. -/
theorem makeRecord_case_name_cases (m : String → Option String) (i : Nat) (cite : Cite) :
    ((makeRecord m i cite).case_name ≠ none ↔
      ((∃ p, (makeRecord m i cite).plaintiff = some p ∧ p ≠ "") ∧
       (∃ d, (makeRecord m i cite).defendant = some d ∧ d ≠ ""))) ∧
    (∀ p d, (makeRecord m i cite).plaintiff = some p →
      (makeRecord m i cite).defendant = some d →
      (makeRecord m i cite).case_name ≠ none →
      (makeRecord m i cite).case_name = some (p ++ " v. " ++ d)) := by
  rw [makeRecord_case_name, makeRecord_plaintiff, makeRecord_defendant]
  rcases hP : safe_get cite.metadata Metadata.plaintiff with _ | p <;>
    rcases hD : safe_get cite.metadata Metadata.defendant with _ | d <;>
      simp [truthyStr]
  by_cases hp : p = "" <;> by_cases hd : d = "" <;> simp [hp, hd]

/-- C6 amended: for every record in a successful output, case_name is
non-null exactly when plaintiff and defendant are both non-null and
non-empty (the code tests Python truthiness, so an empty-string party
yields a null case_name), and when non-null it is plaintiff ++ " v. " ++
defendant. -/
theorem C6_case_name (col : Collab) (text : String)
    (recs : List CitationRecord) (n : Nat)
    (h : (main col text).output = Output.result recs n)
    (r : CitationRecord) (hmem : r ∈ recs) :
    (r.case_name ≠ none ↔
      ((∃ p, r.plaintiff = some p ∧ p ≠ "") ∧
       (∃ d, r.defendant = some d ∧ d ≠ ""))) ∧
    (∀ p d, r.plaintiff = some p → r.defendant = some d → r.case_name ≠ none →
      r.case_name = some (p ++ " v. " ++ d)) := by
  rcases output_result_shape col text recs n h with hnil | ⟨cits, resolved, hshape⟩
  · subst hnil
    exact absurd hmem (by simp)
  · subst hshape
    rcases List.mem_map.mp hmem with ⟨p, hp, rfl⟩
    exact makeRecord_case_name_cases _ _ _

/-- Witness for C6 amended at the concrete colOk record. -/
theorem C6_case_name_witness :
    ((recRoe.case_name ≠ none ↔
      ((∃ p, recRoe.plaintiff = some p ∧ p ≠ "") ∧
       (∃ d, recRoe.defendant = some d ∧ d ≠ ""))) ∧
     (∀ p d, recRoe.plaintiff = some p → recRoe.defendant = some d →
       recRoe.case_name ≠ none → recRoe.case_name = some (p ++ " v. " ++ d))) :=
  C6_case_name colOk "Roe v. Wade, 410 U.S. 113 (1973)" [recRoe] 1 rfl recRoe (by simp)

/-- A full case citation whose plaintiff is the empty string: non-null
but falsy in Python. -/
def citeEmptyPlaintiff : Cite :=
  { cls := CiteClass.FullCaseCitation
    toStr := "410 U.S. 113"
    groups := some [("volume", some "410"), ("reporter", some "U.S."), ("page", some "113")]
    metadata := some
      { pin_cite := none
        year := some "1973"
        court := none
        plaintiff := some ""
        defendant := some "Wade" }
    span := some (0, 12)
    antecedent := none }

/-- Collaborator producing the empty-plaintiff citation. -/
def colEmptyPlaintiff : Collab :=
  { clean_text := fun s => Except.ok s
    get_citations := fun _ => Except.ok [citeEmptyPlaintiff]
    resolve_citations := fun l => Except.ok l }

/-- The record of the colEmptyPlaintiff run. -/
def recEmptyPlaintiff : CitationRecord :=
  makeRecord (buildAntecedentMap [citeEmptyPlaintiff]) 0 citeEmptyPlaintiff

/-- C6 counterexample: a successful run whose single output record has a
non-null plaintiff (the empty string) and a non-null defendant but a null
case_name, because the code tests truthiness rather than nullness, so
case_name non-null is not equivalent to plaintiff and defendant non-null. -/
theorem C6_counterexample :
    (main colEmptyPlaintiff "some text").output = Output.result [recEmptyPlaintiff] 1 ∧
    recEmptyPlaintiff.plaintiff = some "" ∧
    recEmptyPlaintiff.defendant = some "Wade" ∧
    recEmptyPlaintiff.case_name = none :=
  ⟨rfl, rfl, rfl, rfl⟩

/-- C7: every record of a successful output has a citation_type among the
seven enumerated strings, and the type function yields UNKNOWN exactly
when the concrete class of the citation object is none of the six mapped
collaborator classes. -/
theorem C7_citation_type (col : Collab) (text : String)
    (recs : List CitationRecord) (n : Nat)
    (h : (main col text).output = Output.result recs n) :
    (∀ r ∈ recs,
      r.citation_type = "FULL_CASE" ∨ r.citation_type = "SHORT_CASE" ∨
      r.citation_type = "ID" ∨ r.citation_type = "IBID" ∨
      r.citation_type = "SUPRA" ∨ r.citation_type = "STATUTE" ∨
      r.citation_type = "UNKNOWN") ∧
    (∀ cite : Cite, get_citation_type cite = "UNKNOWN" ↔
      (cite.cls ≠ CiteClass.FullCaseCitation ∧ cite.cls ≠ CiteClass.ShortCaseCitation ∧
       cite.cls ≠ CiteClass.IdCitation ∧ cite.cls ≠ CiteClass.IbidCitation ∧
       cite.cls ≠ CiteClass.SupraCitation ∧ cite.cls ≠ CiteClass.FullLawCitation)) := by
  constructor
  · intro r hmem
    rcases output_result_shape col text recs n h with hnil | ⟨cits, resolved, hshape⟩
    · subst hnil
      exact absurd hmem (by simp)
    · subst hshape
      rcases List.mem_map.mp hmem with ⟨p, hp, rfl⟩
      rw [makeRecord_citation_type]
      cases hc : p.2.cls <;> simp [get_citation_type, hc]
  · intro cite
    cases hc : cite.cls <;> simp [get_citation_type, hc]

/-- Witness for C7 at the concrete colOk run. -/
theorem C7_citation_type_witness :
    (∀ r ∈ [recRoe],
      r.citation_type = "FULL_CASE" ∨ r.citation_type = "SHORT_CASE" ∨
      r.citation_type = "ID" ∨ r.citation_type = "IBID" ∨
      r.citation_type = "SUPRA" ∨ r.citation_type = "STATUTE" ∨
      r.citation_type = "UNKNOWN") ∧
    (∀ cite : Cite, get_citation_type cite = "UNKNOWN" ↔
      (cite.cls ≠ CiteClass.FullCaseCitation ∧ cite.cls ≠ CiteClass.ShortCaseCitation ∧
       cite.cls ≠ CiteClass.IdCitation ∧ cite.cls ≠ CiteClass.IbidCitation ∧
       cite.cls ≠ CiteClass.SupraCitation ∧ cite.cls ≠ CiteClass.FullLawCitation)) :=
  C7_citation_type colOk "Roe v. Wade, 410 U.S. 113 (1973)" [recRoe] 1 rfl

/-- C8 amended: for every position of a successful pipeline run, the
record span is null exactly when the underlying citation object exposes
no span accessor, otherwise it is the pair the accessor returns, copied
unchecked; in particular it is ordered whenever the accessor pair is
ordered. -/
theorem C8_span (col : Collab) (text cleaned : String)
    (cits resolved : List Cite)
    (h1 : col.clean_text text = Except.ok cleaned)
    (h2 : col.get_citations cleaned = Except.ok cits)
    (h3 : col.resolve_citations cits = Except.ok resolved)
    (recs : List CitationRecord)
    (hr : extract_citations col text = Except.ok recs)
    (j : Nat) (hj : j < recs.length) (hj2 : j < cits.length) :
    ((cits[j].span = none ↔ recs[j].span = none) ∧
     (∀ a b : Nat, cits[j].span = some (a, b) → recs[j].span = some (a, b)) ∧
     (∀ a b : Nat, cits[j].span = some (a, b) → a ≤ b →
       ∃ s e : Nat, recs[j].span = some (s, e) ∧ s ≤ e)) := by
  have hx := extract_citations_ok col text cleaned cits resolved h1 h2 h3
  rw [hr] at hx
  injection hx with hx
  subst hx
  simp only [List.getElem_map, List.getElem_enum, makeRecord_span]
  exact ⟨trivial, fun a b hab => hab, fun a b hab hle => ⟨a, b, hab, hle⟩⟩

/-- Witness for C8 amended at position 0 of the concrete colTwo run. -/
theorem C8_span_witness :
    (([citeRoe, citeId][0].span = none ↔ [recTwo0, recTwo1][0].span = none) ∧
     (∀ a b : Nat, [citeRoe, citeId][0].span = some (a, b) →
       [recTwo0, recTwo1][0].span = some (a, b)) ∧
     (∀ a b : Nat, [citeRoe, citeId][0].span = some (a, b) → a ≤ b →
       ∃ s e : Nat, [recTwo0, recTwo1][0].span = some (s, e) ∧ s ≤ e)) :=
  C8_span colTwo "some text" "some text" [citeRoe, citeId] [citeRoe, citeIdResolved]
    rfl rfl rfl [recTwo0, recTwo1] rfl 0 (by decide) (by decide)

/-- A citation object whose span accessor returns a decreasing pair. -/
def citeBadSpan : Cite :=
  { cls := CiteClass.FullCaseCitation
    toStr := "bad span"
    groups := none
    metadata := none
    span := some (5, 3)
    antecedent := none }

/-- Collaborator producing the decreasing-span citation. -/
def colBadSpan : Collab :=
  { clean_text := fun s => Except.ok s
    get_citations := fun _ => Except.ok [citeBadSpan]
    resolve_citations := fun l => Except.ok l }

/-- The record of the colBadSpan run. -/
def recBadSpan : CitationRecord :=
  makeRecord (buildAntecedentMap [citeBadSpan]) 0 citeBadSpan

/-- C8 counterexample: the adapter copies the span pair without checking
order, so a collaborator span of (5, 3) yields an output record whose
span start exceeds its span end, refuting the claimed span[0] <= span[1]. -/
theorem C8_counterexample :
    (main colBadSpan "some text").output = Output.result [recBadSpan] 1 ∧
    recBadSpan.span = some (5, 3) ∧
    ¬ (5 : Nat) ≤ 3 :=
  ⟨rfl, rfl, by decide⟩

/-- C9: in a two-citation run where resolution gives the second citation
an antecedent relation to the first and the two citations stringify
differently, the second output record antecedent equals the first record
raw string, and the lookup goes through the flat string-keyed antecedent
map built over the resolved citations. -/
theorem C9_antecedent (col : Collab) (text cleaned : String) (c1 c2 r1 r2 : Cite)
    (h1 : col.clean_text text = Except.ok cleaned)
    (h2 : col.get_citations cleaned = Except.ok [c1, c2])
    (h3 : col.resolve_citations [c1, c2] = Except.ok [r1, r2])
    (_hne : c1.toStr ≠ c2.toStr)
    (hr1 : r1.antecedent = none)
    (hr2s : r2.toStr = c2.toStr)
    (hr2a : r2.antecedent = some c1.toStr)
    (recs : List CitationRecord)
    (hrec : extract_citations col text = Except.ok recs) :
    ∃ rec0 rec1, recs = [rec0, rec1] ∧
      rec0.raw = c1.toStr ∧
      rec1.raw = c2.toStr ∧
      rec1.antecedent = some rec0.raw ∧
      rec1.antecedent = buildAntecedentMap [r1, r2] rec1.raw := by
  have hx := extract_citations_ok col text cleaned [c1, c2] [r1, r2] h1 h2 h3
  rw [hrec] at hx
  injection hx with hx
  subst hx
  refine ⟨makeRecord (buildAntecedentMap [r1, r2]) 0 c1,
    makeRecord (buildAntecedentMap [r1, r2]) 1 c2, rfl, makeRecord_raw _ _ _,
    makeRecord_raw _ _ _, ?_, ?_⟩
  · rw [makeRecord_antecedent, makeRecord_raw]
    simp [buildAntecedentMap, List.foldl_cons, List.foldl_nil, hr1, hr2a, hr2s]
  · rw [makeRecord_antecedent, makeRecord_raw]

/-- Witness for C9 at the concrete colTwo run. -/
theorem C9_antecedent_witness :
    ∃ rec0 rec1, [recTwo0, recTwo1] = [rec0, rec1] ∧
      rec0.raw = citeRoe.toStr ∧
      rec1.raw = citeId.toStr ∧
      rec1.antecedent = some rec0.raw ∧
      rec1.antecedent = buildAntecedentMap [citeRoe, citeIdResolved] rec1.raw :=
  C9_antecedent colTwo "some text" "some text" citeRoe citeId citeRoe citeIdResolved
    rfl rfl rfl (by decide) rfl rfl rfl [recTwo0, recTwo1] rfl

/-- C10: within one successful output, any two records with equal raw
fields have equal antecedent fields, since every antecedent is the single
antecedent map of the run applied to the raw string of the record. -/
theorem C10_raw_determines_antecedent (col : Collab) (text : String)
    (recs : List CitationRecord) (n : Nat)
    (h : (main col text).output = Output.result recs n)
    (ra rb : CitationRecord) (ha : ra ∈ recs) (hb : rb ∈ recs)
    (hraw : ra.raw = rb.raw) :
    ra.antecedent = rb.antecedent := by
  rcases output_result_shape col text recs n h with hnil | ⟨cits, resolved, hshape⟩
  · subst hnil
    exact absurd ha (by simp)
  · subst hshape
    rcases List.mem_map.mp ha with ⟨p, hp, rfl⟩
    rcases List.mem_map.mp hb with ⟨q, hq, rfl⟩
    rw [makeRecord_antecedent, makeRecord_antecedent]
    rw [makeRecord_raw, makeRecord_raw] at hraw
    rw [hraw]

/-- A short-form citation stringifying as Id. -/
def citeDupA : Cite :=
  { cls := CiteClass.IdCitation
    toStr := "Id."
    groups := none
    metadata := none
    span := none
    antecedent := none }

/-- A distinct citation object stringifying identically to citeDupA. -/
def citeDupB : Cite :=
  { cls := CiteClass.SupraCitation
    toStr := "Id."
    groups := none
    metadata := none
    span := none
    antecedent := none }

/-- Collaborator producing two identically-stringified citations. -/
def colDup : Collab :=
  { clean_text := fun s => Except.ok s
    get_citations := fun _ => Except.ok [citeDupA, citeDupB]
    resolve_citations := fun l => Except.ok l }

/-- First record of the colDup run. -/
def recDup0 : CitationRecord :=
  makeRecord (buildAntecedentMap [citeDupA, citeDupB]) 0 citeDupA

/-- Second record of the colDup run. -/
def recDup1 : CitationRecord :=
  makeRecord (buildAntecedentMap [citeDupA, citeDupB]) 1 citeDupB

/-- Witness for C10 at the concrete colDup run with two records sharing
one raw string. -/
theorem C10_raw_determines_antecedent_witness :
    recDup0.antecedent = recDup1.antecedent :=
  C10_raw_determines_antecedent colDup "some text" [recDup0, recDup1] 2 rfl
    recDup0 recDup1 (by simp) (by simp) rfl

end EyeciteExtract
